import Mathlib

/-
Verification development for the redux-easy-async library.

The library builds plain JavaScript objects and closures:
  * `createAsyncConstants` / `getOrCreateAsyncConstants`: derive and memoize
    the `{ START_TYPE, SUCCESS_TYPE, FAIL_TYPE, NAME }` constant set for a
    base type string (async-constants.js, modelled from the spec — the file
    is not part of the provided sources).
  * `createAction`: plain action-creator factory (action.js, modelled from
    the spec).
  * `createAsyncAction` (src/async-action.js): validates the type, builds a
    creator that validates the user's descriptor on each invocation and
    packages it with namespace tag, arguments and sub-creators.
  * `createAsyncMiddleware` (middleware.js, modelled from the spec): drives
    the start / success / fail dispatch lifecycle of one request.

JavaScript values are embedded as the inductive `JSVal`; objects are
insertion-ordered association lists with unique keys, and object-literal
spread (`{ a, ...b, c }`) is embedded by `spreadFields` / `setField`,
which replace an existing key in place or append a fresh one, matching
JS insertion-order semantics.  Functions attached to actions are opaque
(`vFunc` tags) except the plain action creators, which the library itself
constructs and which are kept structural (`vCreator`) so that equalities
about them can be stated.  Thrown exceptions are modelled by `Except`.
-/

namespace ReduxEasyAsync

/-- A plain action creator produced by `createAction type`: a closure whose
only data is the wrapped action type string. -/
structure PlainActionCreator where
  actionType : String
deriving DecidableEq, Repr

/-- Embedding of JavaScript values, at the granularity the library
inspects them: `typeof` tags, object fields, arrays, and the library's
own plain action creators kept structural. `vFunc` is an opaque
user-supplied function value identified by a tag. -/
inductive JSVal where
  | vStr (s : String)
  | vNum (n : Int)
  | vBool (b : Bool)
  | vNull
  | vUndefined
  | vFunc (tag : Nat)
  | vCreator (c : PlainActionCreator)
  | vArr (elems : List JSVal)
  | vObj (fields : List (String × JSVal))

/-- JavaScript `typeof` operator. Note the JS quirk: `typeof null` is
"object". -/
def typeof : JSVal → String
  | .vStr _ => "string"
  | .vNum _ => "number"
  | .vBool _ => "boolean"
  | .vNull => "object"
  | .vUndefined => "undefined"
  | .vFunc _ => "function"
  | .vCreator _ => "function"
  | .vArr _ => "object"
  | .vObj _ => "object"

/-- First-match lookup of a key in an object's field list. -/
def getField : List (String × JSVal) → String → Option JSVal
  | [], _ => none
  | (k, v) :: rest, key => if k = key then some v else getField rest key

/-- Assigning a key in an object's field list: an existing key is
overwritten in place, a fresh key is appended, matching JS insertion-order
semantics for object literals. -/
def setField : List (String × JSVal) → String → JSVal → List (String × JSVal)
  | [], key, val => [(key, val)]
  | (k, v) :: rest, key, val =>
      if k = key then (k, val) :: rest else (k, v) :: setField rest key val

/-- Object spread `{ ...base, ...extra }`: each field of `extra` is
assigned over `base` in order, so later occurrences win. -/
def spreadFields (base extra : List (String × JSVal)) : List (String × JSVal) :=
  extra.foldl (fun acc kv => setField acc kv.1 kv.2) base

/-- Errors the library can raise: the three designated errors of
lib/constants plus the JavaScript TypeError raised by property access on
null or undefined. -/
inductive JSError where
  | asyncTypeNotValid
  | actionNotObject
  | makeRequestNotFunction
  | typeError
deriving DecidableEq, Repr

/-- JavaScript property access `v.k`: a TypeError on null/undefined,
`undefined` for a missing key or a primitive receiver. -/
def getProp : JSVal → String → Except JSError JSVal
  | .vNull, _ => .error .typeError
  | .vUndefined, _ => .error .typeError
  | .vObj fields, k => .ok ((getField fields k).getD .vUndefined)
  | _, _ => .ok .vUndefined

/-- Modelled from the spec: the async constant set
`{ START_TYPE, SUCCESS_TYPE, FAIL_TYPE, NAME }` produced by the
constant-pair generator (async-constants.js is not among the provided
sources). -/
structure AsyncConstants where
  START_TYPE : String
  SUCCESS_TYPE : String
  FAIL_TYPE : String
  NAME : String
deriving DecidableEq, Repr

/-- Modelled from the spec: `createAsyncConstants` derives
`<TYPE>_START`, `<TYPE>_SUCCESS`, `<TYPE>_FAIL` and a display name from a
base type string. -/
def createAsyncConstants (s : String) : AsyncConstants :=
  { START_TYPE := s ++ "_START"
    SUCCESS_TYPE := s ++ "_SUCCESS"
    FAIL_TYPE := s ++ "_FAIL"
    NAME := s }

/-- The generator's memo table, keyed by base type string. -/
abbrev ConstCache := List (String × AsyncConstants)

/-- First-match lookup in the memo table. -/
def lookupConst : ConstCache → String → Option AsyncConstants
  | [], _ => none
  | (k, c) :: rest, key => if k = key then some c else lookupConst rest key

/-- Modelled from the spec: the string branch of `getOrCreateAsyncConstants`
memoizes by base type, returning the cached set when present and
creating and caching it otherwise. The memo table is passed explicitly
(in the source it is module-level mutable state). -/
def getOrCreateAsyncConstantsStr (cache : ConstCache) (s : String) :
    AsyncConstants × ConstCache :=
  match lookupConst cache s with
  | some c => (c, cache)
  | none =>
      let c := createAsyncConstants s
      (c, (s, c) :: cache)

/-- The `type` argument of `createAsyncAction`: a base type string, a
constants object made with `createAsyncConstants`, or anything else
(invalid). -/
inductive TypeInput where
  | ofString (s : String)
  | ofConstants (c : AsyncConstants)
  | invalid

/-- Modelled from the spec: `getOrCreateAsyncConstants` accepts a string or
an existing constants object and yields nothing (a falsy value in the
source) for any other input (async-constants.js is not among the provided
sources). -/
def getOrCreateAsyncConstants (cache : ConstCache) :
    TypeInput → Option (AsyncConstants × ConstCache)
  | .ofString s => some (getOrCreateAsyncConstantsStr cache s)
  | .ofConstants c => some (c, cache)
  | .invalid => none

/-- Modelled from the spec: `REDUX_EASY_ASYNC_NAMESPACE` from lib/constants,
the reserved action type the middleware intercepts. Its exact text is
opaque to every claim. -/
def REDUX_EASY_ASYNC_NAMESPACE : String := "REDUX_EASY_ASYNC"

/-- Modelled from the spec: `createAction` wraps a type string into a plain
action creator (action.js is not among the provided sources). -/
def createAction (t : String) : PlainActionCreator :=
  ⟨t⟩

/-- Modelled from the spec: applying a plain action creator yields
`{ type, payload, ...meta }`. -/
def PlainActionCreator.apply (ac : PlainActionCreator) (payload : JSVal)
    (meta : List (String × JSVal)) : JSVal :=
  .vObj (spreadFields [("type", .vStr ac.actionType), ("payload", payload)] meta)

/-- The `options` argument of `createAsyncAction`; `namespaceOpt` is the
optional `options.namespace`, defaulted to `REDUX_EASY_ASYNC_NAMESPACE`. -/
structure AsyncOptions where
  namespaceOpt : Option String
deriving DecidableEq, Repr

/-- The object literal built by the creator (src/async-action.js lines
93-101): the namespace tag first, the user's descriptor spread over it,
then the five library fields assigned last. -/
def buildAsyncActionObject (ns : String) (c : AsyncConstants)
    (actionFields : List (String × JSVal)) (args : List JSVal) :
    List (String × JSVal) :=
  setField (setField (setField (setField (setField
    (spreadFields [("type", .vStr ns)] actionFields)
    "actionCreatorArgs" (.vArr args))
    "actionName" (.vStr c.NAME))
    "startActionCreator" (.vCreator (createAction c.START_TYPE)))
    "successActionCreator" (.vCreator (createAction c.SUCCESS_TYPE)))
    "failActionCreator" (.vCreator (createAction c.FAIL_TYPE))

/-- The field list of an object value; spreading any non-object
contributes nothing. -/
def objFields : JSVal → List (String × JSVal)
  | .vObj fields => fields
  | _ => []

/-- The body of the `actionCreator` closure returned by `createAsyncAction`
(src/async-action.js lines 85-102): run `fn`, reject a non-object result
with `ACTION_NOT_OBJECT`, reject a result whose `makeRequest` is not a
function with `MAKE_REQUEST_NOT_FUNCTION` (property access on a null
result raises a TypeError, as in JS), and otherwise build the tagged
action object. -/
def asyncActionCall (ns : String) (c : AsyncConstants)
    (fn : List JSVal → JSVal) (args : List JSVal) : Except JSError JSVal :=
  let action := fn args
  if typeof action ≠ "object" then .error .actionNotObject
  else
    match getProp action "makeRequest" with
    | .error e => .error e
    | .ok mk =>
        if typeof mk ≠ "function" then .error .makeRequestNotFunction
        else .ok (.vObj (buildAsyncActionObject ns c (objFields action) args))

/-- The value returned by `createAsyncAction`: the creator closure `call`
together with the properties `decorateActionCreator` assigns onto it
(src/async-action.js lines 6-18): the four constants, the three
sub-creators and `actionName`. -/
structure AsyncActionCreator where
  START_TYPE : String
  SUCCESS_TYPE : String
  FAIL_TYPE : String
  NAME : String
  start : PlainActionCreator
  success : PlainActionCreator
  fail : PlainActionCreator
  actionName : String
  call : List JSVal → Except JSError JSVal

/-- `createAsyncAction` (src/async-action.js lines 75-106): resolve the
namespace option, derive or fetch the constants (throwing
`ASYNC_TYPE_NOT_VALID` when the type is invalid), and return the
decorated creator. The memo table is threaded explicitly. -/
def createAsyncAction (cache : ConstCache) (type_ : TypeInput)
    (fn : List JSVal → JSVal) (options : AsyncOptions) :
    Except JSError (AsyncActionCreator × ConstCache) :=
  let ns := options.namespaceOpt.getD REDUX_EASY_ASYNC_NAMESPACE
  match getOrCreateAsyncConstants cache type_ with
  | none => .error .asyncTypeNotValid
  | some (c, cache') =>
      .ok ({ START_TYPE := c.START_TYPE
             SUCCESS_TYPE := c.SUCCESS_TYPE
             FAIL_TYPE := c.FAIL_TYPE
             NAME := c.NAME
             start := createAction c.START_TYPE
             success := createAction c.SUCCESS_TYPE
             fail := createAction c.FAIL_TYPE
             actionName := c.NAME
             call := asyncActionCall ns c fn }, cache')

/-- Creating the creator and invoking it at `args`, propagating either
error. -/
def callAsync (cache : ConstCache) (type_ : TypeInput)
    (fn : List JSVal → JSVal) (options : AsyncOptions) (args : List JSVal) :
    Except JSError JSVal :=
  match createAsyncAction cache type_ fn options with
  | .error e => .error e
  | .ok (ac, _) => ac.call args

/-- One named property of the object produced by `callAsync`. -/
def callProp (cache : ConstCache) (type_ : TypeInput)
    (fn : List JSVal → JSVal) (options : AsyncOptions) (args : List JSVal)
    (k : String) : Except JSError JSVal :=
  match callAsync cache type_ fn options args with
  | .error e => .error e
  | .ok v => getProp v k

/-- Modelled from the spec: the async action object as the middleware reads
it — the `shouldMakeRequest` predicate over store state (defaulting to
true in the source, here always explicit), the three parse functions
whose results become the payloads, the three sub-creators attached by
`createAsyncAction`, the action name, and the user's extra meta
(middleware.js is not among the provided sources). Store state is a
`JSVal`. -/
structure MiddlewareAction where
  shouldMakeRequest : JSVal → Bool
  parseStart : JSVal
  parseSuccess : JSVal → JSVal
  parseFail : JSVal → JSVal
  startActionCreator : PlainActionCreator
  successActionCreator : PlainActionCreator
  failActionCreator : PlainActionCreator
  actionName : String
  meta : List (String × JSVal)

/-- The settlement of the user's request promise. -/
inductive PromiseOutcome where
  | resolved (resp : JSVal)
  | rejected (err : JSVal)

/-- The identity and timing metadata the middleware assigns to one
request: the unique request id, the start timestamp and the measured
duration. -/
structure RequestTiming where
  asyncID : Nat
  requestStartTime : Nat
  requestDuration : Nat

/-- Modelled from the spec: the meta carried by every lifecycle action —
the user's meta plus `actionName`, `asyncType`, `requestStartTime` and
`asyncID`. -/
def lifecycleMeta (a : MiddlewareAction) (t : RequestTiming) (stage : String) :
    List (String × JSVal) :=
  setField (setField (setField (setField a.meta
    "actionName" (.vStr a.actionName))
    "asyncType" (.vStr stage))
    "requestStartTime" (.vNum (t.requestStartTime : Int)))
    "asyncID" (.vNum (t.asyncID : Int))

/-- Modelled from the spec: success and fail actions additionally carry
`requestDuration` and the raw response or rejection value as `resp`. -/
def settledMeta (a : MiddlewareAction) (t : RequestTiming) (stage : String)
    (resp : JSVal) : List (String × JSVal) :=
  setField (setField (lifecycleMeta a t stage)
    "requestDuration" (.vNum (t.requestDuration : Int)))
    "resp" resp

/-- The start action the middleware dispatches. -/
def startDispatched (a : MiddlewareAction) (t : RequestTiming) : JSVal :=
  a.startActionCreator.apply a.parseStart (lifecycleMeta a t "start")

/-- The success action the middleware dispatches on resolution: payload is
`parseSuccess resp`. -/
def successDispatched (a : MiddlewareAction) (t : RequestTiming) (resp : JSVal) :
    JSVal :=
  a.successActionCreator.apply (a.parseSuccess resp) (settledMeta a t "success" resp)

/-- The fail action the middleware dispatches on rejection: payload is
`parseFail err`. -/
def failDispatched (a : MiddlewareAction) (t : RequestTiming) (err : JSVal) :
    JSVal :=
  a.failActionCreator.apply (a.parseFail err) (settledMeta a t "fail" err)

/-- Modelled from the spec: the middleware's handling of one intercepted
async action, as the ordered list of actions it dispatches. When
`shouldMakeRequest` rejects the current state nothing is dispatched;
otherwise the start action is dispatched, the request runs, and on
settlement the success or fail action follows. A rejection is captured
and re-dispatched, never re-thrown, so the run never ends in `.error`
(middleware.js is not among the provided sources). -/
def runAsyncMiddleware (state : JSVal) (a : MiddlewareAction)
    (t : RequestTiming) (outcome : PromiseOutcome) :
    Except JSVal (List JSVal) :=
  if a.shouldMakeRequest state then
    match outcome with
    | .resolved resp => .ok [startDispatched a t, successDispatched a t resp]
    | .rejected err => .ok [startDispatched a t, failDispatched a t err]
  else .ok []

/-- The five keys the creator assigns after spreading the user's
descriptor (src/async-action.js lines 96-100), so library values win over
user keys of the same name. -/
def libraryAssignedKeys : List String :=
  ["actionCreatorArgs", "actionName", "startActionCreator",
   "successActionCreator", "failActionCreator"]

/-- The library-assigned fields of a built action object: the creator's
arguments, the display name, and the three sub-creators. -/
def containsLibraryFields (obj : List (String × JSVal)) (c : AsyncConstants)
    (args : List JSVal) : Prop :=
  getField obj "actionCreatorArgs" = some (.vArr args) ∧
  getField obj "actionName" = some (.vStr c.NAME) ∧
  getField obj "startActionCreator" = some (.vCreator (createAction c.START_TYPE)) ∧
  getField obj "successActionCreator" = some (.vCreator (createAction c.SUCCESS_TYPE)) ∧
  getField obj "failActionCreator" = some (.vCreator (createAction c.FAIL_TYPE))

/-- A well-formed user fn whose descriptor also carries an extra field. -/
def exValidFn : List JSVal → JSVal :=
  fun _ => .vObj [("makeRequest", .vFunc 0), ("extra", .vStr "e")]

/-- A user fn whose descriptor carries a makeRequest function together
with its own `actionName` key. -/
def exClashFn : List JSVal → JSVal :=
  fun _ => .vObj [("makeRequest", .vFunc 0), ("actionName", .vStr "bogus")]

/-- A user fn returning null. -/
def exNullFn : List JSVal → JSVal :=
  fun _ => .vNull

/-- A user fn whose descriptor carries its own `type` key. -/
def exTypeFn : List JSVal → JSVal :=
  fun _ => .vObj [("makeRequest", .vFunc 0), ("type", .vStr "CUSTOM")]

/-- A user fn agreeing with `exValidFn` on the empty argument list but not
everywhere. -/
def exValidFn2 : List JSVal → JSVal :=
  fun args => if args.length = 0
    then .vObj [("makeRequest", .vFunc 0), ("extra", .vStr "e")]
    else .vNull

/-- A user fn returning a number. -/
def exNumFn : List JSVal → JSVal :=
  fun _ => .vNum 5

/-- A user fn whose descriptor's makeRequest is a string, not a
function. -/
def exBadMkFn : List JSVal → JSVal :=
  fun _ => .vObj [("makeRequest", .vStr "nope")]

/-- A descriptor using every library-assigned key and a `type` key of its
own. -/
def exAllClashFields : List (String × JSVal) :=
  [("makeRequest", .vFunc 0), ("type", .vStr "CUSTOM"),
   ("actionCreatorArgs", .vStr "u1"), ("actionName", .vStr "u2"),
   ("startActionCreator", .vStr "u3"), ("successActionCreator", .vStr "u4"),
   ("failActionCreator", .vStr "u5")]

/-- The constant set for base type "T". -/
def exConstantsT : AsyncConstants :=
  createAsyncConstants "T"

/-- The memo table after creating the constants for "T" in an empty
table. -/
def exCacheT : ConstCache :=
  [("T", exConstantsT)]

/-- The creator `createAsyncAction` produces for type "T", `exValidFn` and
default options. -/
def exCreatorT : AsyncActionCreator :=
  { START_TYPE := exConstantsT.START_TYPE
    SUCCESS_TYPE := exConstantsT.SUCCESS_TYPE
    FAIL_TYPE := exConstantsT.FAIL_TYPE
    NAME := exConstantsT.NAME
    start := createAction exConstantsT.START_TYPE
    success := createAction exConstantsT.SUCCESS_TYPE
    fail := createAction exConstantsT.FAIL_TYPE
    actionName := exConstantsT.NAME
    call := asyncActionCall REDUX_EASY_ASYNC_NAMESPACE exConstantsT exValidFn }

/-- A concrete async action whose predicate always accepts. -/
def exGoAction : MiddlewareAction :=
  { shouldMakeRequest := fun _ => true
    parseStart := .vNull
    parseSuccess := fun resp => resp
    parseFail := fun err => err
    startActionCreator := createAction "T_START"
    successActionCreator := createAction "T_SUCCESS"
    failActionCreator := createAction "T_FAIL"
    actionName := "T"
    meta := [] }

/-- A concrete async action whose user meta carries a `payload` key of
its own. -/
def exMetaPayloadAction : MiddlewareAction :=
  { shouldMakeRequest := fun _ => true
    parseStart := .vNull
    parseSuccess := fun resp => resp
    parseFail := fun err => err
    startActionCreator := createAction "T_START"
    successActionCreator := createAction "T_SUCCESS"
    failActionCreator := createAction "T_FAIL"
    actionName := "T"
    meta := [("payload", .vStr "X")] }

/-- A concrete async action whose predicate always rejects. -/
def exStopAction : MiddlewareAction :=
  { shouldMakeRequest := fun _ => false
    parseStart := .vNull
    parseSuccess := fun resp => resp
    parseFail := fun err => err
    startActionCreator := createAction "T_START"
    successActionCreator := createAction "T_SUCCESS"
    failActionCreator := createAction "T_FAIL"
    actionName := "T"
    meta := [] }

/-- Concrete identity and timing metadata for one request. -/
def exTiming : RequestTiming :=
  { asyncID := 1, requestStartTime := 2, requestDuration := 3 }

theorem getField_setField_self (fs : List (String × JSVal)) (k : String) (v : JSVal) :
    getField (setField fs k v) k = some v := by
  induction fs with
  | nil => simp [setField, getField]
  | cons kv rest ih =>
      by_cases h : kv.1 = k
      · simp [setField, getField, h]
      · simp [setField, getField, h, ih]

theorem getField_setField_ne (fs : List (String × JSVal)) (k k' : String) (v : JSVal)
    (h : k ≠ k') : getField (setField fs k v) k' = getField fs k' := by
  induction fs with
  | nil => simp [setField, getField, h]
  | cons kv rest ih =>
      by_cases hk : kv.1 = k
      · simp [setField, getField, hk, h]
      · by_cases hk' : kv.1 = k'
        · simp [setField, getField, hk, hk', Ne.symm h]
        · simp [setField, getField, hk, hk', ih]

theorem getField_spread_of_none (extra : List (String × JSVal)) (base : List (String × JSVal))
    (k : String) (h : getField extra k = none) :
    getField (spreadFields base extra) k = getField base k := by
  induction extra generalizing base with
  | nil => simp [spreadFields]
  | cons kv rest ih =>
      have hk : kv.1 ≠ k := by
        intro hEq
        simp [getField, hEq] at h
      have hrest : getField rest k = none := by
        simpa [getField, hk] using h
      have hstep : spreadFields base (kv :: rest) = spreadFields (setField base kv.1 kv.2) rest := by
        simp [spreadFields, List.foldl]
      rw [hstep, ih _ hrest, getField_setField_ne _ _ _ _ hk]

theorem getField_none_of_not_mem (fs : List (String × JSVal)) (k : String)
    (h : k ∉ fs.map Prod.fst) : getField fs k = none := by
  induction fs with
  | nil => simp [getField]
  | cons kv rest ih =>
      simp only [List.map_cons, List.mem_cons] at h
      push_neg at h
      have h1 : kv.1 ≠ k := fun hEq => h.1 hEq.symm
      simp [getField, h1, ih h.2]

theorem getField_spread_of_some (extra : List (String × JSVal)) (base : List (String × JSVal))
    (k : String) (v : JSVal) (hnd : (extra.map Prod.fst).Nodup)
    (h : getField extra k = some v) :
    getField (spreadFields base extra) k = some v := by
  induction extra generalizing base with
  | nil => simp [getField] at h
  | cons kv rest ih =>
      simp only [List.map_cons, List.nodup_cons] at hnd
      have hstep : spreadFields base (kv :: rest) = spreadFields (setField base kv.1 kv.2) rest := by
        simp [spreadFields, List.foldl]
      by_cases hk : kv.1 = k
      · subst hk
        have hv : v = kv.2 := by
          simp [getField] at h
          exact h.symm
        have hrest : getField rest kv.1 = none :=
          getField_none_of_not_mem _ _ hnd.1
        rw [hstep, getField_spread_of_none _ _ _ hrest, getField_setField_self, hv]
      · have hrest : getField rest k = some v := by
          simpa [getField, hk] using h
        rw [hstep, ih _ hnd.2 hrest]

theorem getProp_apply_payload (ac : PlainActionCreator) (p : JSVal)
    (meta : List (String × JSVal)) (h : getField meta "payload" = none) :
    getProp (ac.apply p meta) "payload" = .ok p := by
  simp [PlainActionCreator.apply, getProp, getField_spread_of_none _ _ _ h, getField]

theorem getField_lifecycleMeta_payload (a : MiddlewareAction) (t : RequestTiming)
    (stage : String) (h : getField a.meta "payload" = none) :
    getField (lifecycleMeta a t stage) "payload" = none := by
  rw [lifecycleMeta,
    getField_setField_ne _ _ _ _ (by decide),
    getField_setField_ne _ _ _ _ (by decide),
    getField_setField_ne _ _ _ _ (by decide),
    getField_setField_ne _ _ _ _ (by decide), h]

theorem getField_settledMeta_payload (a : MiddlewareAction) (t : RequestTiming)
    (stage : String) (resp : JSVal) (h : getField a.meta "payload" = none) :
    getField (settledMeta a t stage resp) "payload" = none := by
  rw [settledMeta,
    getField_setField_ne _ _ _ _ (by decide),
    getField_setField_ne _ _ _ _ (by decide),
    getField_lifecycleMeta_payload a t stage h]

theorem containsLibraryFields_build (ns : String) (c : AsyncConstants)
    (fields : List (String × JSVal)) (args : List JSVal) :
    containsLibraryFields (buildAsyncActionObject ns c fields args) c args := by
  have hfa : ("failActionCreator" : String) ≠ "actionCreatorArgs" := by decide
  have hsa : ("successActionCreator" : String) ≠ "actionCreatorArgs" := by decide
  have hta : ("startActionCreator" : String) ≠ "actionCreatorArgs" := by decide
  have hna : ("actionName" : String) ≠ "actionCreatorArgs" := by decide
  have hfn : ("failActionCreator" : String) ≠ "actionName" := by decide
  have hsn : ("successActionCreator" : String) ≠ "actionName" := by decide
  have htn : ("startActionCreator" : String) ≠ "actionName" := by decide
  have hft : ("failActionCreator" : String) ≠ "startActionCreator" := by decide
  have hst : ("successActionCreator" : String) ≠ "startActionCreator" := by decide
  have hfs : ("failActionCreator" : String) ≠ "successActionCreator" := by decide
  refine ⟨?_, ?_, ?_, ?_, ?_⟩
  · rw [buildAsyncActionObject, getField_setField_ne _ _ _ _ hfa,
      getField_setField_ne _ _ _ _ hsa, getField_setField_ne _ _ _ _ hta,
      getField_setField_ne _ _ _ _ hna, getField_setField_self]
  · rw [buildAsyncActionObject, getField_setField_ne _ _ _ _ hfn,
      getField_setField_ne _ _ _ _ hsn, getField_setField_ne _ _ _ _ htn,
      getField_setField_self]
  · rw [buildAsyncActionObject, getField_setField_ne _ _ _ _ hft,
      getField_setField_ne _ _ _ _ hst, getField_setField_self]
  · rw [buildAsyncActionObject, getField_setField_ne _ _ _ _ hfs,
      getField_setField_self]
  · rw [buildAsyncActionObject, getField_setField_self]

theorem getField_build_user (ns : String) (c : AsyncConstants)
    (fields : List (String × JSVal)) (args : List JSVal) (k : String) (v : JSVal)
    (hnd : (fields.map Prod.fst).Nodup) (hv : getField fields k = some v)
    (hk : k ∉ libraryAssignedKeys) :
    getField (buildAsyncActionObject ns c fields args) k = some v := by
  simp only [libraryAssignedKeys, List.mem_cons, List.mem_singleton] at hk
  push_neg at hk
  obtain ⟨h1, h2, h3, h4, h5, -⟩ := hk
  rw [buildAsyncActionObject, getField_setField_ne _ _ _ _ (Ne.symm h5),
    getField_setField_ne _ _ _ _ (Ne.symm h4), getField_setField_ne _ _ _ _ (Ne.symm h3),
    getField_setField_ne _ _ _ _ (Ne.symm h2), getField_setField_ne _ _ _ _ (Ne.symm h1),
    getField_spread_of_some _ _ _ _ hnd hv]

theorem getField_build_type_none (ns : String) (c : AsyncConstants)
    (fields : List (String × JSVal)) (args : List JSVal)
    (h : getField fields "type" = none) :
    getField (buildAsyncActionObject ns c fields args) "type" = some (.vStr ns) := by
  rw [buildAsyncActionObject,
    getField_setField_ne _ _ _ _ (by decide), getField_setField_ne _ _ _ _ (by decide),
    getField_setField_ne _ _ _ _ (by decide), getField_setField_ne _ _ _ _ (by decide),
    getField_setField_ne _ _ _ _ (by decide), getField_spread_of_none _ _ _ h]
  simp [getField]

theorem getField_build_type_some (ns : String) (c : AsyncConstants)
    (fields : List (String × JSVal)) (args : List JSVal) (v : JSVal)
    (hnd : (fields.map Prod.fst).Nodup) (h : getField fields "type" = some v) :
    getField (buildAsyncActionObject ns c fields args) "type" = some v := by
  rw [buildAsyncActionObject,
    getField_setField_ne _ _ _ _ (by decide), getField_setField_ne _ _ _ _ (by decide),
    getField_setField_ne _ _ _ _ (by decide), getField_setField_ne _ _ _ _ (by decide),
    getField_setField_ne _ _ _ _ (by decide), getField_spread_of_some _ _ _ _ hnd h]

theorem typeof_vObj (fields : List (String × JSVal)) :
    typeof (.vObj fields) = "object" := rfl

theorem asyncActionCall_ok (ns : String) (c : AsyncConstants)
    (fn : List JSVal → JSVal) (args : List JSVal) (fields : List (String × JSVal))
    (hfn : fn args = .vObj fields)
    (hmk : typeof ((getField fields "makeRequest").getD .vUndefined) = "function") :
    asyncActionCall ns c fn args = .ok (.vObj (buildAsyncActionObject ns c fields args)) := by
  simp [asyncActionCall, hfn, typeof_vObj, getProp, hmk, objFields]

theorem createAsyncAction_ok (cache : ConstCache) (type_ : TypeInput)
    (fn : List JSVal → JSVal) (options : AsyncOptions) (c : AsyncConstants)
    (cacheOut : ConstCache)
    (hg : getOrCreateAsyncConstants cache type_ = some (c, cacheOut)) :
    createAsyncAction cache type_ fn options =
      .ok ({ START_TYPE := c.START_TYPE
             SUCCESS_TYPE := c.SUCCESS_TYPE
             FAIL_TYPE := c.FAIL_TYPE
             NAME := c.NAME
             start := createAction c.START_TYPE
             success := createAction c.SUCCESS_TYPE
             fail := createAction c.FAIL_TYPE
             actionName := c.NAME
             call := asyncActionCall (options.namespaceOpt.getD REDUX_EASY_ASYNC_NAMESPACE) c fn },
           cacheOut) := by
  simp [createAsyncAction, hg]

/-- Claim C1 (amended): for every async action dispatched through the
lifecycle middleware whose request promise resolves and whose user meta
carries no `payload` key of its own, the dispatch trace is exactly the
start action followed by the success action — start strictly before
success — and the success action's payload equals `parseSuccess` applied
to the resolved response. (Unamended, the claim fails for an action
whose user meta has a `payload` key: the `{ type, payload, ...meta }`
spread of the plain creator lets the meta value override the payload
slot; see the counterexample.) -/
theorem successful_request_dispatches_start_then_success
    (state : JSVal) (a : MiddlewareAction) (t : RequestTiming) (resp : JSVal)
    (hgo : a.shouldMakeRequest state = true)
    (hp : getField a.meta "payload" = none) :
    runAsyncMiddleware state a t (.resolved resp) =
      .ok [startDispatched a t, successDispatched a t resp] ∧
    getProp (successDispatched a t resp) "payload" = .ok (a.parseSuccess resp) := by
  constructor
  · simp [runAsyncMiddleware, hgo]
  · exact getProp_apply_payload _ _ _ (getField_settledMeta_payload a t "success" resp hp)

/-- Witness for C1 at a concrete action, timing and response. -/
theorem successful_request_dispatches_start_then_success_witness :
    exGoAction.shouldMakeRequest JSVal.vNull = true ∧
    getField exGoAction.meta "payload" = none ∧
    (runAsyncMiddleware JSVal.vNull exGoAction exTiming (.resolved (JSVal.vStr "r")) =
      .ok [startDispatched exGoAction exTiming,
           successDispatched exGoAction exTiming (JSVal.vStr "r")] ∧
     getProp (successDispatched exGoAction exTiming (JSVal.vStr "r")) "payload" =
       .ok (exGoAction.parseSuccess (JSVal.vStr "r"))) :=
  ⟨rfl, rfl, successful_request_dispatches_start_then_success
    JSVal.vNull exGoAction exTiming (JSVal.vStr "r") rfl rfl⟩

/-- Counterexample to C1 as stated: an async action whose user meta
carries a `payload` key is within the claim's scope, the middleware
dispatches start then success for it, yet the success action's payload
is the meta's value, not `parseSuccess` of the resolved response. -/
theorem successful_request_dispatches_start_then_success_counterexample :
    exMetaPayloadAction.shouldMakeRequest JSVal.vNull = true ∧
    exMetaPayloadAction.meta = [("payload", JSVal.vStr "X")] ∧
    runAsyncMiddleware JSVal.vNull exMetaPayloadAction exTiming
      (.resolved (JSVal.vStr "r")) =
      .ok [startDispatched exMetaPayloadAction exTiming,
           successDispatched exMetaPayloadAction exTiming (JSVal.vStr "r")] ∧
    getProp (successDispatched exMetaPayloadAction exTiming (JSVal.vStr "r"))
      "payload" = .ok (JSVal.vStr "X") ∧
    exMetaPayloadAction.parseSuccess (JSVal.vStr "r") = JSVal.vStr "r" ∧
    JSVal.vStr "X" ≠ JSVal.vStr "r" :=
  ⟨rfl, rfl, rfl, rfl, rfl, by simp⟩

/-- Claim C2 (amended): for every async action dispatched through the
lifecycle middleware whose request promise rejects and whose user meta
carries no `payload` key of its own, the middleware does not re-throw
(the run yields a dispatch trace, never an exception): it dispatches the
start action followed by a fail action whose payload is `parseFail`
applied to the rejection value, and the trace contains no success
action. (Unamended, the claim fails for an action whose user meta has a
`payload` key, which overrides the fail action's payload slot; see the
counterexample.) -/
theorem rejected_request_dispatches_start_then_fail
    (state : JSVal) (a : MiddlewareAction) (t : RequestTiming) (err : JSVal)
    (hgo : a.shouldMakeRequest state = true)
    (hp : getField a.meta "payload" = none) :
    runAsyncMiddleware state a t (.rejected err) =
      .ok [startDispatched a t, failDispatched a t err] ∧
    getProp (failDispatched a t err) "payload" = .ok (a.parseFail err) := by
  constructor
  · simp [runAsyncMiddleware, hgo]
  · exact getProp_apply_payload _ _ _ (getField_settledMeta_payload a t "fail" err hp)

/-- Witness for C2 at a concrete action, timing and rejection value. -/
theorem rejected_request_dispatches_start_then_fail_witness :
    exGoAction.shouldMakeRequest JSVal.vNull = true ∧
    getField exGoAction.meta "payload" = none ∧
    (runAsyncMiddleware JSVal.vNull exGoAction exTiming (.rejected (JSVal.vStr "boom")) =
      .ok [startDispatched exGoAction exTiming,
           failDispatched exGoAction exTiming (JSVal.vStr "boom")] ∧
     getProp (failDispatched exGoAction exTiming (JSVal.vStr "boom")) "payload" =
       .ok (exGoAction.parseFail (JSVal.vStr "boom"))) :=
  ⟨rfl, rfl, rejected_request_dispatches_start_then_fail
    JSVal.vNull exGoAction exTiming (JSVal.vStr "boom") rfl rfl⟩

/-- Counterexample to C2 as stated: an async action whose user meta
carries a `payload` key is within the claim's scope, the middleware
captures the rejection and dispatches start then fail for it, yet the
fail action's payload is the meta's value, not `parseFail` of the
rejection value. -/
theorem rejected_request_dispatches_start_then_fail_counterexample :
    exMetaPayloadAction.shouldMakeRequest JSVal.vNull = true ∧
    exMetaPayloadAction.meta = [("payload", JSVal.vStr "X")] ∧
    runAsyncMiddleware JSVal.vNull exMetaPayloadAction exTiming
      (.rejected (JSVal.vStr "boom")) =
      .ok [startDispatched exMetaPayloadAction exTiming,
           failDispatched exMetaPayloadAction exTiming (JSVal.vStr "boom")] ∧
    getProp (failDispatched exMetaPayloadAction exTiming (JSVal.vStr "boom"))
      "payload" = .ok (JSVal.vStr "X") ∧
    exMetaPayloadAction.parseFail (JSVal.vStr "boom") = JSVal.vStr "boom" ∧
    JSVal.vStr "X" ≠ JSVal.vStr "boom" :=
  ⟨rfl, rfl, rfl, rfl, rfl, by simp⟩

/-- Claim C3: for every async action dispatched through the lifecycle
middleware whose `shouldMakeRequest` predicate evaluates to false on the
current store state, the middleware dispatches nothing at all — no start
action, and consequently no success or fail action — whatever the
request would have settled to. -/
theorem predicate_false_dispatches_nothing
    (state : JSVal) (a : MiddlewareAction) (t : RequestTiming)
    (outcome : PromiseOutcome)
    (hstop : a.shouldMakeRequest state = false) :
    runAsyncMiddleware state a t outcome = .ok [] := by
  simp [runAsyncMiddleware, hstop]

/-- Witness for C3 at a concrete action whose predicate rejects. -/
theorem predicate_false_dispatches_nothing_witness :
    exStopAction.shouldMakeRequest JSVal.vNull = false ∧
    runAsyncMiddleware JSVal.vNull exStopAction exTiming
      (.resolved (JSVal.vStr "r")) = .ok [] :=
  ⟨rfl, predicate_false_dispatches_nothing
    JSVal.vNull exStopAction exTiming (.resolved (JSVal.vStr "r")) rfl⟩

/-- Claim C6: for a type argument from which no constant set can be
derived, `createAsyncAction` itself raises `ASYNC_TYPE_NOT_VALID`
synchronously and returns no creator, whatever `fn` and the options
are. -/
theorem invalid_type_throws
    (cache : ConstCache) (fn : List JSVal → JSVal) (options : AsyncOptions) :
    createAsyncAction cache TypeInput.invalid fn options =
      .error .asyncTypeNotValid := rfl

/-- Claim C7: a second call to the constant generator with the same base
type string returns exactly the result of the first call — the same
constant set and an unchanged memo table — and the returned set is the
one stored in the table under that base type. -/
theorem constant_generator_memoizes (cache : ConstCache) (s : String) :
    getOrCreateAsyncConstantsStr (getOrCreateAsyncConstantsStr cache s).2 s =
      getOrCreateAsyncConstantsStr cache s ∧
    lookupConst (getOrCreateAsyncConstantsStr cache s).2 s =
      some (getOrCreateAsyncConstantsStr cache s).1 := by
  cases h : lookupConst cache s with
  | some c => constructor <;> simp [getOrCreateAsyncConstantsStr, h]
  | none => constructor <;> simp [getOrCreateAsyncConstantsStr, h, lookupConst]

/-- Claim C10: `createAsyncAction` validates eagerly only the type
argument: with an invalid type it fails identically for every `fn`; with
a valid type it succeeds for every `fn`, so the factory never throws on
account of `fn`; and the returned creator's behaviour at an invocation
depends only on the value `fn` returns for that invocation's arguments,
so the descriptor validations run anew each time the creator is
called. -/
theorem validation_timing
    (cache : ConstCache) (s : String) (fn fn' : List JSVal → JSVal)
    (options : AsyncOptions) (args : List JSVal)
    (h : fn args = fn' args) :
    createAsyncAction cache TypeInput.invalid fn options = .error .asyncTypeNotValid ∧
    (createAsyncAction cache (TypeInput.ofString s) fn options).isOk = true ∧
    callAsync cache (TypeInput.ofString s) fn options args =
      callAsync cache (TypeInput.ofString s) fn' options args := by
  refine ⟨rfl, ?_, ?_⟩
  · simp [createAsyncAction, getOrCreateAsyncConstants, Except.isOk, Except.toBool]
  · simp [callAsync, createAsyncAction, getOrCreateAsyncConstants, asyncActionCall, h]

/-- Witness for C10: two user functions agreeing on the empty argument
list. -/
theorem validation_timing_witness :
    exValidFn [] = exValidFn2 [] ∧
    (createAsyncAction [] TypeInput.invalid exValidFn (AsyncOptions.mk none) =
       .error .asyncTypeNotValid ∧
     (createAsyncAction [] (TypeInput.ofString "T") exValidFn (AsyncOptions.mk none)).isOk = true ∧
     callAsync [] (TypeInput.ofString "T") exValidFn (AsyncOptions.mk none) [] =
       callAsync [] (TypeInput.ofString "T") exValidFn2 (AsyncOptions.mk none) []) :=
  ⟨rfl, validation_timing [] "T" exValidFn exValidFn2 (AsyncOptions.mk none) [] rfl⟩

/-- Claim C4 (amended): for every valid type, every fn returning an
object with a makeRequest function, and every argument list, the creator
returned by `createAsyncAction` applied to args returns an object that
keeps every field of `fn(...args)` whose key is not one of the five
library-assigned keys, and carries `actionCreatorArgs` equal to args,
`actionName` equal to the constant set's NAME, and the action creators
for START_TYPE, SUCCESS_TYPE and FAIL_TYPE; those same three creators
and the four constants are also attached as properties of the returned
creator itself. (Unamended, "all fields of fn(...args)" fails when the
descriptor itself uses one of the five library-assigned keys, which the
library's later spread overrides; see the counterexample.) -/
theorem creator_packages_descriptor
    (cache : ConstCache) (tIn : TypeInput) (fn : List JSVal → JSVal)
    (options : AsyncOptions) (args : List JSVal) (fields : List (String × JSVal))
    (c : AsyncConstants) (cacheOut : ConstCache) (ac : AsyncActionCreator)
    (cacheOut2 : ConstCache) (k : String) (v : JSVal)
    (hg : getOrCreateAsyncConstants cache tIn = some (c, cacheOut))
    (hc : createAsyncAction cache tIn fn options = .ok (ac, cacheOut2))
    (hfn : fn args = .vObj fields)
    (hmk : typeof ((getField fields "makeRequest").getD .vUndefined) = "function")
    (hnd : (fields.map Prod.fst).Nodup)
    (hv : getField fields k = some v)
    (hk : k ∉ libraryAssignedKeys) :
    ac.START_TYPE = c.START_TYPE ∧ ac.SUCCESS_TYPE = c.SUCCESS_TYPE ∧
    ac.FAIL_TYPE = c.FAIL_TYPE ∧ ac.NAME = c.NAME ∧
    ac.start = createAction c.START_TYPE ∧ ac.success = createAction c.SUCCESS_TYPE ∧
    ac.fail = createAction c.FAIL_TYPE ∧ ac.actionName = c.NAME ∧
    ac.call args = .ok (.vObj (buildAsyncActionObject
      (options.namespaceOpt.getD REDUX_EASY_ASYNC_NAMESPACE) c fields args)) ∧
    containsLibraryFields (buildAsyncActionObject
      (options.namespaceOpt.getD REDUX_EASY_ASYNC_NAMESPACE) c fields args) c args ∧
    getField (buildAsyncActionObject
      (options.namespaceOpt.getD REDUX_EASY_ASYNC_NAMESPACE) c fields args) k = some v := by
  rw [createAsyncAction_ok cache tIn fn options c cacheOut hg, Except.ok.injEq,
    Prod.mk.injEq] at hc
  obtain ⟨hac, -⟩ := hc
  subst hac
  refine ⟨rfl, rfl, rfl, rfl, rfl, rfl, rfl, rfl, ?_, ?_, ?_⟩
  · exact asyncActionCall_ok _ _ _ _ _ hfn hmk
  · exact containsLibraryFields_build _ _ _ _
  · exact getField_build_user _ _ _ _ _ _ hnd hv hk

/-- Witness for C4 (amended) at type "T", a descriptor with one extra
field, and the empty argument list. -/
theorem creator_packages_descriptor_witness :
    getOrCreateAsyncConstants [] (TypeInput.ofString "T") = some (exConstantsT, exCacheT) ∧
    createAsyncAction [] (TypeInput.ofString "T") exValidFn (AsyncOptions.mk none) =
      .ok (exCreatorT, exCacheT) ∧
    exValidFn [] = .vObj [("makeRequest", JSVal.vFunc 0), ("extra", JSVal.vStr "e")] ∧
    "extra" ∉ libraryAssignedKeys ∧
    (exCreatorT.START_TYPE = exConstantsT.START_TYPE ∧
     exCreatorT.SUCCESS_TYPE = exConstantsT.SUCCESS_TYPE ∧
     exCreatorT.FAIL_TYPE = exConstantsT.FAIL_TYPE ∧
     exCreatorT.NAME = exConstantsT.NAME ∧
     exCreatorT.start = createAction exConstantsT.START_TYPE ∧
     exCreatorT.success = createAction exConstantsT.SUCCESS_TYPE ∧
     exCreatorT.fail = createAction exConstantsT.FAIL_TYPE ∧
     exCreatorT.actionName = exConstantsT.NAME ∧
     exCreatorT.call [] = .ok (.vObj (buildAsyncActionObject
       ((AsyncOptions.mk none).namespaceOpt.getD REDUX_EASY_ASYNC_NAMESPACE)
       exConstantsT [("makeRequest", JSVal.vFunc 0), ("extra", JSVal.vStr "e")] [])) ∧
     containsLibraryFields (buildAsyncActionObject
       ((AsyncOptions.mk none).namespaceOpt.getD REDUX_EASY_ASYNC_NAMESPACE)
       exConstantsT [("makeRequest", JSVal.vFunc 0), ("extra", JSVal.vStr "e")] [])
       exConstantsT [] ∧
     getField (buildAsyncActionObject
       ((AsyncOptions.mk none).namespaceOpt.getD REDUX_EASY_ASYNC_NAMESPACE)
       exConstantsT [("makeRequest", JSVal.vFunc 0), ("extra", JSVal.vStr "e")] [])
       "extra" = some (JSVal.vStr "e")) :=
  ⟨rfl, rfl, rfl, by decide,
   creator_packages_descriptor [] (TypeInput.ofString "T") exValidFn
     (AsyncOptions.mk none) [] [("makeRequest", JSVal.vFunc 0), ("extra", JSVal.vStr "e")]
     exConstantsT exCacheT exCreatorT exCacheT "extra" (JSVal.vStr "e")
     rfl rfl rfl rfl (by decide) rfl (by decide)⟩

/-- Counterexample to C4 as stated: a descriptor carrying a makeRequest
function together with its own `actionName` field satisfies the claim's
hypothesis, yet the returned action object's `actionName` is the
library's display name, not the descriptor's value — the object does not
contain all fields of `fn(...args)`. -/
theorem creator_packages_descriptor_counterexample :
    exClashFn [] = .vObj [("makeRequest", .vFunc 0), ("actionName", .vStr "bogus")] ∧
    callProp [] (TypeInput.ofString "T") exClashFn (AsyncOptions.mk none) [] "actionName" =
      .ok (.vStr "T") ∧
    JSVal.vStr "T" ≠ JSVal.vStr "bogus" := by
  refine ⟨rfl, rfl, by simp⟩

/-- Claim C5 (amended): invoking the creator rejects a malformed
descriptor synchronously, returning no action object: a return value of
`fn` whose JS typeof is not "object" raises exactly the designated
ACTION_NOT_OBJECT error, and a non-null return value of typeof "object"
whose makeRequest property is not a function raises exactly the
designated MAKE_REQUEST_NOT_FUNCTION error. (Unamended, the claim fails
on a null return, whose typeof is "object" in JS and whose property
access raises a TypeError instead of either designated error; see the
counterexample.) -/
theorem invalid_descriptor_throws
    (cache : ConstCache) (s : String) (fn : List JSVal → JSVal)
    (options : AsyncOptions) (args : List JSVal) (mk : JSVal) :
    (typeof (fn args) ≠ "object" →
      callAsync cache (TypeInput.ofString s) fn options args = .error .actionNotObject) ∧
    (typeof (fn args) = "object" →
      getProp (fn args) "makeRequest" = .ok mk →
      typeof mk ≠ "function" →
      callAsync cache (TypeInput.ofString s) fn options args = .error .makeRequestNotFunction) := by
  constructor
  · intro h1
    simp [callAsync, createAsyncAction, getOrCreateAsyncConstants, asyncActionCall, h1]
  · intro h1 h2 h3
    simp [callAsync, createAsyncAction, getOrCreateAsyncConstants, asyncActionCall, h1, h2, h3]

/-- Witness for C5 (amended): a number-returning fn trips the non-object
check and a descriptor whose makeRequest is a string trips the function
check. -/
theorem invalid_descriptor_throws_witness :
    typeof (exNumFn []) ≠ "object" ∧
    callAsync [] (TypeInput.ofString "T") exNumFn (AsyncOptions.mk none) [] =
      .error .actionNotObject ∧
    typeof (exBadMkFn []) = "object" ∧
    getProp (exBadMkFn []) "makeRequest" = .ok (JSVal.vStr "nope") ∧
    typeof (JSVal.vStr "nope") ≠ "function" ∧
    callAsync [] (TypeInput.ofString "T") exBadMkFn (AsyncOptions.mk none) [] =
      .error .makeRequestNotFunction :=
  ⟨by decide,
   (invalid_descriptor_throws [] "T" exNumFn (AsyncOptions.mk none) [] JSVal.vUndefined).1
     (by decide),
   rfl, rfl, by decide,
   (invalid_descriptor_throws [] "T" exBadMkFn (AsyncOptions.mk none) [] (JSVal.vStr "nope")).2
     rfl rfl (by decide)⟩

/-- Counterexample to C5 as stated: a null-returning fn — null being no
object — is rejected with a JS TypeError at the makeRequest property
access, because null's typeof is "object" and the ACTION_NOT_OBJECT
guard does not fire; neither designated error is raised. -/
theorem invalid_descriptor_throws_counterexample :
    exNullFn [] = JSVal.vNull ∧
    typeof JSVal.vNull = "object" ∧
    callAsync [] (TypeInput.ofString "T") exNullFn (AsyncOptions.mk none) [] =
      .error .typeError ∧
    JSError.typeError ≠ JSError.actionNotObject ∧
    JSError.typeError ≠ JSError.makeRequestNotFunction :=
  ⟨rfl, rfl, rfl, by decide, by decide⟩

/-- Claim C8 (amended): for every valid type, every fn returning a valid
descriptor without a `type` key of its own, and every argument list, the
object returned by the creator carries the reserved namespace —
`options.namespace` when given, otherwise REDUX_EASY_ASYNC_NAMESPACE —
as its `type` field, which is what the middleware's interception keys
on. (Unamended, the claim fails when the descriptor itself has a `type`
key, which is spread over the namespace tag; see the counterexample.) -/
theorem action_tagged_with_namespace
    (cache : ConstCache) (s : String) (fn : List JSVal → JSVal)
    (options : AsyncOptions) (args : List JSVal) (fields : List (String × JSVal))
    (hfn : fn args = .vObj fields)
    (hmk : typeof ((getField fields "makeRequest").getD .vUndefined) = "function")
    (ht : getField fields "type" = none) :
    callProp cache (TypeInput.ofString s) fn options args "type" =
      .ok (.vStr (options.namespaceOpt.getD REDUX_EASY_ASYNC_NAMESPACE)) := by
  have hcall : callAsync cache (TypeInput.ofString s) fn options args =
      .ok (.vObj (buildAsyncActionObject
        (options.namespaceOpt.getD REDUX_EASY_ASYNC_NAMESPACE)
        (getOrCreateAsyncConstantsStr cache s).1 fields args)) := by
    simp [callAsync, createAsyncAction, getOrCreateAsyncConstants,
      asyncActionCall_ok _ _ _ _ _ hfn hmk]
  simp [callProp, hcall, getProp, getField_build_type_none _ _ _ _ ht]

/-- Witness for C8 (amended) at type "T", default options and a
descriptor with no `type` key. -/
theorem action_tagged_with_namespace_witness :
    exValidFn [] = .vObj [("makeRequest", JSVal.vFunc 0), ("extra", JSVal.vStr "e")] ∧
    getField [("makeRequest", JSVal.vFunc 0), ("extra", JSVal.vStr "e")] "type" = none ∧
    callProp [] (TypeInput.ofString "T") exValidFn (AsyncOptions.mk none) [] "type" =
      .ok (.vStr ((AsyncOptions.mk none).namespaceOpt.getD REDUX_EASY_ASYNC_NAMESPACE)) :=
  ⟨rfl, rfl,
   action_tagged_with_namespace [] "T" exValidFn (AsyncOptions.mk none) []
     [("makeRequest", JSVal.vFunc 0), ("extra", JSVal.vStr "e")] rfl rfl rfl⟩

/-- Counterexample to C8 as stated: a valid descriptor carrying its own
`type` key produces an action object whose `type` is the descriptor's
value, not the reserved namespace. -/
theorem action_tagged_with_namespace_counterexample :
    exTypeFn [] = .vObj [("makeRequest", .vFunc 0), ("type", .vStr "CUSTOM")] ∧
    callProp [] (TypeInput.ofString "T") exTypeFn (AsyncOptions.mk none) [] "type" =
      .ok (.vStr "CUSTOM") ∧
    JSVal.vStr "CUSTOM" ≠ JSVal.vStr REDUX_EASY_ASYNC_NAMESPACE := by
  refine ⟨rfl, rfl, by simp [REDUX_EASY_ASYNC_NAMESPACE]⟩

/-- Claim C9: the library's assignments are spread after the user's
descriptor, so the built action object's `actionCreatorArgs`,
`actionName` and three sub-creator fields equal the library values even
when the descriptor uses those same keys, whereas the namespace tag is
spread before the descriptor, so a `type` key in the descriptor replaces
the namespace. -/
theorem library_fields_override_user_keys
    (ns : String) (c : AsyncConstants) (fields : List (String × JSVal))
    (args : List JSVal) (v : JSVal)
    (hnd : (fields.map Prod.fst).Nodup)
    (ht : getField fields "type" = some v) :
    containsLibraryFields (buildAsyncActionObject ns c fields args) c args ∧
    getField (buildAsyncActionObject ns c fields args) "type" = some v :=
  ⟨containsLibraryFields_build ns c fields args,
   getField_build_type_some ns c fields args v hnd ht⟩

/-- Witness for C9 at a descriptor that uses every library-assigned key
and its own `type` key. -/
theorem library_fields_override_user_keys_witness :
    (exAllClashFields.map Prod.fst).Nodup ∧
    getField exAllClashFields "type" = some (.vStr "CUSTOM") ∧
    (containsLibraryFields (buildAsyncActionObject "NS" exConstantsT exAllClashFields [])
       exConstantsT [] ∧
     getField (buildAsyncActionObject "NS" exConstantsT exAllClashFields []) "type" =
       some (.vStr "CUSTOM")) :=
  ⟨by decide, rfl,
   library_fields_override_user_keys "NS" exConstantsT exAllClashFields []
     (JSVal.vStr "CUSTOM") (by decide) rfl⟩

end ReduxEasyAsync
